import Mathlib

/-!
# Verification of the ez-ipc JSON-RPC core (`src/ezipc/remote/`)

A shallow embedding of the protocol codec (`remote/protocol.py`), the peer
engine (`remote/__init__.py`) and the framed connection (`remote/connection.py`).
Python dictionaries are embedded as association lists, JSON values as the
inductive type `J`, and fallible Python code as `Except PyExc`.  Stateful
operations of a `Remote` are embedded as explicit functions on a record
`RState` holding the fields of the Python object that the claims mention
(`open` flag, outstanding-future table, message counters, and the sequence of
payloads written to the connection).

Randomness (`uuid4`, `secrets.randbits`) is embedded by passing the drawn
values as explicit arguments.
-/

/-- JSON values, as produced by `json.loads`.  Numbers are embedded as
integers; no claim involves fractional numbers. -/
inductive J where
  | null
  | bool (b : Bool)
  | num (n : Int)
  | str (s : String)
  | arr (elems : List J)
  | obj (fields : List (String × J))

/-- Python truthiness (`bool(x)`) of a JSON value: `None`, `False`, `0`, `""`,
`[]` and `{}` are falsy, everything else truthy. -/
def jtruthy : J → Bool
  | .null => false
  | .bool b => b
  | .num n => n != 0
  | .str s => !s.isEmpty
  | .arr elems => !elems.isEmpty
  | .obj fields => !fields.isEmpty

/-- Truthiness of an optional value (`None` for `Option.none`). -/
def jtruthyO : Option J → Bool
  | none => false
  | some v => jtruthy v

/-- `d.get(k)` on an embedded Python dict (keys are unique in a dict, so
first-match lookup is exact). -/
def alookup {α : Type} (k : String) : List (String × α) → Option α
  | [] => none
  | (k', v) :: t => if k' = k then some v else alookup k t

/-- Membership of a key in a key list, as a Bool (`k in keys`). -/
def keyMem (k : String) (keys : List String) : Bool :=
  keys.contains k

/-- `xs <= ys` on Python frozensets of strings, with the sets represented by
their element lists. -/
def allIn (xs ys : List String) : Bool :=
  xs.all fun x => ys.contains x

/-! ### The frozenset constants of `remote/protocol.py` (lines 30-43). -/

def basicK : List String := ["jsonrpc"]
def idK : List String := ["jsonrpc", "id"]
def methodK : List String := ["jsonrpc", "method"]
def notifSupK : List String := ["jsonrpc", "method", "params"]
def reqSubK : List String := ["jsonrpc", "id", "method"]
def reqSupK : List String := ["jsonrpc", "id", "method", "params"]
def resSubK : List String := ["error", "result"]
def resSupK : List String := ["jsonrpc", "id", "error", "result"]

/-- The message classification of `JRPC` (`remote/protocol.py` line 416). -/
inductive JRPC where
  | NONE
  | NOTIF
  | REQUEST
  | RESPONSE

/-- `JRPC.check` (`remote/protocol.py` lines 422-439): classify a decoded JSON
object by its key set.  `id_ < keys` is a proper-subset test; `res_sub & keys`
is a non-empty-intersection test, rendered as membership of `"error"` or
`"result"`. -/
def JRPC.check (fs : List (String × J)) : JRPC :=
  match alookup "jsonrpc" fs with
  | some (J.str "2.0") =>
      let keys := fs.map Prod.fst
      if allIn idK keys && !(allIn keys idK) then
        if allIn reqSubK keys && allIn keys reqSupK then .REQUEST
        else if (keyMem "error" keys || keyMem "result" keys) && allIn keys resSupK then
          .RESPONSE
        else .NONE
      else if allIn methodK keys && allIn keys notifSupK then .NOTIF
      else .NONE
  | _ => .NONE

/-! ### Embedded Python exceptions. -/

/-- The Python exceptions reachable in the embedded code.  `remoteError` is
the `RemoteError(code, message, data, id)` of `remote/exc.py`. -/
inductive PyExc where
  | valueError (msg : String)
  | typeError (msg : String)
  | keyError (msg : String)
  | attributeError (msg : String)
  | jsonDecodeError (msg : String)
  | timeoutError
  | connectionResetError (reason : J)
  | runtimeError (msg : String)
  | remoteError (code : J) (message : J) (data : J) (id : J)

/-! ### The message model (`remote/protocol.py` lines 239-413). -/

/-- `self.params` of a `Notification`/`Request`: either a positional list or a
keyword mapping (never both); the default is the empty list. -/
inductive Params where
  | pos (elems : List J)
  | named (fields : List (String × J))

/-- `Notification` (`remote/protocol.py` line 253).  The `method` field holds
whatever JSON value sat under the `"method"` key. -/
structure NotificationM where
  method : J
  params : Params

/-- `Request` (`remote/protocol.py` line 286). -/
structure RequestM where
  method : J
  params : Params
  id : J

/-- `Response` (`remote/protocol.py` line 340): `error` and `result` hold the
raw values given to the constructor (inbound: raw JSON; outbound: the
dict-image of an `Error` object). -/
structure ResponseM where
  id : J
  error : Option J
  result : Option J

/-- A decoded `Message`. -/
inductive Msg where
  | notif (n : NotificationM)
  | req (r : RequestM)
  | res (r : ResponseM)

/-- `Notification.__init__` (`remote/protocol.py` lines 267-279): mixing
positional and keyword arguments raises `ValueError`; with neither, `params`
defaults to the empty list. -/
def NotificationM.init (method : J) (args : List J) (kwargs : List (String × J)) :
    Except PyExc NotificationM :=
  if !args.isEmpty && !kwargs.isEmpty then
    .error (.valueError "JSONRPC Notification cannot mix Positional and Keyword Arguments.")
  else if !args.isEmpty then .ok ⟨method, .pos args⟩
  else if !kwargs.isEmpty then .ok ⟨method, .named kwargs⟩
  else .ok ⟨method, .pos []⟩

/-- `id or _id_new()` (`remote/protocol.py` line 315): a falsy bound `id`
(including `None`) is replaced by a fresh `uuid4().hex`. -/
def pyIdOr (idArg : Option J) (fresh : String) : J :=
  match idArg with
  | some v => if jtruthy v then v else .str fresh
  | none => .str fresh

/-- `Request.__init__` (`remote/protocol.py` lines 302-315).  `kwAll` is the
full keyword-argument dict of the call; the keyword-only parameter `id` is
bound from it when present and the rest lands in `**kwargs`.  `fresh` is the
`uuid4().hex` drawn by `_id_new` (line 80). -/
def RequestM.init (method : J) (args : List J) (kwAll : List (String × J))
    (fresh : String) : Except PyExc RequestM :=
  let idArg := alookup "id" kwAll
  let kwargs := kwAll.filter fun kv => kv.1 ≠ "id"
  if !args.isEmpty && !kwargs.isEmpty then
    .error (.valueError "JSONRPC Request cannot mix Positional and Keyword Arguments.")
  else if !args.isEmpty then .ok ⟨method, .pos args, pyIdOr idArg fresh⟩
  else if !kwargs.isEmpty then .ok ⟨method, .named kwargs, pyIdOr idArg fresh⟩
  else .ok ⟨method, .pos [], pyIdOr idArg fresh⟩

/-- `Response.__init__` together with `Response.set` (`remote/protocol.py`
lines 359-393): `set` runs only when `error or result` is truthy, and raises
`ValueError` when both or neither of its arguments are `None`. -/
def ResponseM.init (id : J) (error result : Option J) : Except PyExc ResponseM :=
  if jtruthyO error || jtruthyO result then
    if error.isNone == result.isNone then
      .error (.valueError "Response must be provided either an Error OR a Result.")
    else .ok ⟨id, error, result⟩
  else .ok ⟨id, none, none⟩

/-! ### `Error` objects (`remote/protocol.py` lines 88-143). -/

/-- The `Error` object: `code`, `message` and optional `data`. -/
structure ErrorObj where
  code : Int
  message : String
  data : Option J

/-- `Error.method_not_found` (line 113). -/
def ErrorObj.methodNotFound (data : Option J) : ErrorObj :=
  ⟨-32601, "Method not found", data⟩

/-- `Error.parse_error` (line 105). -/
def ErrorObj.parseError (data : Option J) : ErrorObj :=
  ⟨-32700, "Parse error", data⟩

/-- `dict(error)` via `Error.__iter__` (lines 124-137): `code` and `message`
always, `data` only when it is not `None`. -/
def ErrorObj.toDict (e : ErrorObj) : List (String × J) :=
  [("code", J.num e.code), ("message", J.str e.message)] ++
    (match e.data with
     | some d => [("data", d)]
     | none => [])

/-- The dict-image of an `Error` object as a JSON value. -/
def ErrorObj.toJ (e : ErrorObj) : J := .obj e.toDict

/-- Modelled from the spec: `Error.from_exception` is called at
`remote/__init__.py` lines 406 and 458 but is defined nowhere under `src/`;
per the spec's handler return-mapping a raised exception becomes
"error `code=5, message="<Type>: <str>", data=args`". -/
def ErrorObj.fromException (e : PyExc) : ErrorObj :=
  let pair : String × String :=
    match e with
    | .valueError m => ("ValueError", m)
    | .typeError m => ("TypeError", m)
    | .keyError m => ("KeyError", m)
    | .attributeError m => ("AttributeError", m)
    | .jsonDecodeError m => ("JSONDecodeError", m)
    | .timeoutError => ("TimeoutError", "")
    | .connectionResetError _ => ("ConnectionResetError", "")
    | .runtimeError m => ("RuntimeError", m)
    | .remoteError _ _ _ _ => ("RemoteError", "")
  ⟨5, pair.1 ++ ": " ++ pair.2, some (J.arr [J.str pair.2])⟩

/-- Modelled from the spec: `error.as_exception()` is called at
`remote/__init__.py` line 252 but is defined nowhere under `src/`; per the
spec a remote Error Response "surfaces on the local completion as a typed
error (code, message, data, id)", matching `RemoteError(code, message, data,
id)` of `remote/exc.py`. -/
def asException (err : J) (id : J) : PyExc :=
  match err with
  | .obj fs =>
      .remoteError ((alookup "code" fs).getD .null) ((alookup "message" fs).getD .null)
        ((alookup "data" fs).getD .null) id
  | v => .remoteError v .null .null id

/-! ### Structural equality on JSON values (Python `==` on parsed JSON). -/

mutual

/-- Python `==` on JSON values (used by `dict` keying of `self.futures`). -/
def jeq : J → J → Bool
  | .null, .null => true
  | .bool a, .bool b => a == b
  | .num a, .num b => a == b
  | .str a, .str b => a == b
  | .arr as_, .arr bs => jeqList as_ bs
  | .obj fs, .obj gs => jeqObj fs gs
  | _, _ => false

/-- Elementwise `jeq` on JSON arrays. -/
def jeqList : List J → List J → Bool
  | [], [] => true
  | a :: as_, b :: bs => jeq a b && jeqList as_ bs
  | _, _ => false

/-- Fieldwise `jeq` on JSON objects. -/
def jeqObj : List (String × J) → List (String × J) → Bool
  | [], [] => true
  | (k, v) :: fs, (k', v') :: gs => k == k' && jeq v v' && jeqObj fs gs
  | _, _ => false

end

/-! ### `JRPC.decode` (`remote/protocol.py` lines 441-475).

`decode` is a generator fully drained by the dict comprehension of
`Remote.run_helpers._helper` (line 361), so it is embedded as an
`Except`-valued function over the parsed JSON value.  It is indexed by
`ids : Nat -> String`, the stream of `uuid4().hex` values drawn by `_id_new`
for decoded Requests (the wire `"id"` of an inbound Request is NOT passed to
`Request.__init__`, so every decoded Request receives a fresh local id unless
its params dict happens to carry an `"id"` key). -/

/-- One pass of the `for msg in structure` loop of `JRPC.decode`: classify
each object and construct the matching message; objects classified `NONE` are
skipped silently (the `if/elif` chain has no `else`); a non-dict element makes
`cls.check(msg)` call `.get` on it, raising `AttributeError`. -/
def decodeItems (ids : Nat → String) : Nat → List J → Except PyExc (List Msg)
  | _, [] => .ok []
  | idx, item :: rest =>
    match item with
    | .obj fs =>
      match JRPC.check fs with
      | .NOTIF => do
          let m := (alookup "method" fs).getD .null
          let n ← (match alookup "params" fs with
            | some (.obj pfs) => NotificationM.init m [] pfs
            | some (.arr xs) => NotificationM.init m xs []
            | _ => NotificationM.init m [] [])
          let tail ← decodeItems ids idx rest
          .ok (.notif n :: tail)
      | .REQUEST => do
          let m := (alookup "method" fs).getD .null
          let r ← (match alookup "params" fs with
            | some (.obj pfs) => RequestM.init m [] pfs (ids idx)
            | some (.arr xs) => RequestM.init m xs [] (ids idx)
            | _ => RequestM.init m [] [] (ids idx))
          let tail ← decodeItems ids (idx + 1) rest
          .ok (.req r :: tail)
      | .RESPONSE => do
          let r ← ResponseM.init ((alookup "id" fs).getD .null) (alookup "error" fs)
            (alookup "result" fs)
          let tail ← decodeItems ids idx rest
          .ok (.res r :: tail)
      | .NONE => decodeItems ids idx rest
    | _ => .error (.attributeError "object has no attribute get")

/-- `JRPC.decode` on the parsed JSON value of one line: a lone object is
wrapped into a one-element sequence, an array is iterated; iterating any
other value either yields nothing (the empty string) or raises. -/
def JRPC.decodeJ (ids : Nat → String) (v : J) : Except PyExc (List Msg) :=
  match v with
  | .obj _ => decodeItems ids 0 [v]
  | .arr xs => decodeItems ids 0 xs
  | .str s => if s.isEmpty then .ok [] else .error (.attributeError "object has no attribute get")
  | _ => .error (.typeError "object is not iterable")

/-! ### `Message.__str__` (`remote/protocol.py` lines 249-250). -/

/-- The `__iter__` methods of `Notification`, `Request` and `Response`
(`remote/protocol.py` lines 281-283, 335-337 and 403-405) are `# TODO` stubs
whose body is the bare `...` expression: calling them returns `None`, so
`dict(self)` inside `Message.__str__` raises
`TypeError: iter() returned non-iterator`.  The embedded iteration therefore
never produces a field list. -/
def msgIterItems : Msg → Option (List (String × J)) := fun _ => none

/-- `Message.__str__` as a JSON value: `dumps(dict(self), separators=(",", ":"))`
succeeds exactly when `dict(self)` does, i.e. never, because `msgIterItems`
is the stubbed `__iter__`.  (`dumps`/`loads` with fixed separators is a
bijection between JSON values and their compact encodings, so encoding is
stated at the level of `J`.) -/
def Message.strJ (m : Msg) : Option J := (msgIterItems m).map J.obj

/-! ### The `Remote` engine state (`remote/__init__.py`). -/

/-- The lifecycle of one `asyncio.Future` in `Remote.futures`. -/
inductive FutState where
  | pending
  | resolved (v : Option J)
  | failed (e : PyExc)
  | cancelled

/-- What `Remote.process_message` does with an inbound Response
(lines 229-258). -/
inductive RespAct where
  | droppedUnsolicited
  | droppedCancelled
  | droppedDone
  | completedError (e : PyExc)
  | completedResult (v : Option J)

/-- The observable state of a `Remote`: the connection `open` flag, the
outstanding-future table `self.futures` (a dict keyed by message ids, which
are JSON values), the sequence of payloads written to the connection, and the
message counters of `total_sent`/`total_recv`.  Byte counters live on the
`Connection` and are not modelled. -/
structure RState where
  openFlag : Bool
  futures : List (J × FutState)
  writes : List J
  sentNotif : Nat
  sentRequest : Nat
  sentResponse : Nat
  recvNotif : Nat
  recvRequest : Nat
  recvResponse : Nat

/-- `self.futures` membership test / read (`msg.id in self.futures`). -/
def lookupJ (l : List (J × FutState)) (k : J) : Option FutState :=
  match l with
  | [] => none
  | (k', v) :: t => if jeq k' k then some v else lookupJ t k

/-- `self.futures[k] = v`: replace the value under an existing equal key, or
append a new entry. -/
def setJ (l : List (J × FutState)) (k : J) (v : FutState) : List (J × FutState) :=
  if l.any (fun kv => jeq kv.1 k) then
    l.map fun kv => if jeq kv.1 k then (kv.1, v) else kv
  else l ++ [(k, v)]

/-- `self.futures.pop(k)`: dict keys are unique, so dropping every equal key
is exact. -/
def popJ (l : List (J × FutState)) (k : J) : List (J × FutState) :=
  l.filter fun kv => !(jeq kv.1 k)

/-- The possible Python values coming back from a message processor, as
discriminated by the `isinstance` chain of `Remote.run_helpers` (lines
388-432).  Handlers are embedded as synchronous; the value an awaitable
handler resolves to goes through the identical `isinstance` chain in the
`finals` loop (lines 442-465). -/
inductive PyRet where
  | noneV
  | intV (n : Int)
  | strV (s : String)
  | dictV (fs : List (String × J))
  | listV (xs : List J)
  | tupleV (xs : List J)
  | respV (r : ResponseM)
  | excV (e : PyExc)

/-- A registered Request hook (the `handle_request` wrapper of
`remote/handlers.py`): it receives the Request and either returns a value or
raises. -/
def Handler : Type := RequestM → Except PyExc PyRet

/-- A registered Notification hook. -/
def NHandler : Type := NotificationM → Except PyExc PyRet

/-- The `try/except Exception` around a hook invocation in
`Remote.process_message` (lines 270-274 and 299-306): a raised exception is
captured and returned as a value. -/
def callHook (h : Handler) (r : RequestM) : PyRet :=
  match h r with
  | .ok v => v
  | .error e => .excV e

/-- `callHook` for Notification hooks. -/
def callNHook (h : NHandler) (n : NotificationM) : PyRet :=
  match h n with
  | .ok v => v
  | .error e => .excV e

/-- `d[k] = v` on an embedded dict with string keys. -/
def setKey {α : Type} (l : List (String × α)) (k : String) (v : α) : List (String × α) :=
  match l with
  | [] => [(k, v)]
  | (k', v') :: t => if k' = k then (k, v) :: t else (k', v') :: setKey t k v

/-- `hooks = own.copy(); hooks.update(inher)` (lines 263-265 and 283-285):
entries of the inherited table overwrite same-named entries of the peer's own
table. -/
def hooksMerge {α : Type} (own inher : List (String × α)) : List (String × α) :=
  inher.foldl (fun acc kv => setKey acc kv.1 kv.2) own

/-- `msg.method in hooks` followed by `hooks[msg.method]`: the stored keys are
strings, so a non-string method never matches. -/
def strLookup {α : Type} (tbl : List (String × α)) (m : J) : Option α :=
  match m with
  | .str s => alookup s tbl
  | _ => none

/-- The Response branch of `Remote.process_message` (lines 229-258): bump the
`response` counter; pop the future waiting on `msg.id` if any, warn-and-drop
when it is cancelled or already done, otherwise complete it with the error
(via the spec-modelled `as_exception`) or the result.  An id with no waiting
future is warned about and dropped. -/
def Remote.handleResponse (st : RState) (r : ResponseM) : RState × RespAct :=
  let st0 := {st with recvResponse := st.recvResponse + 1}
  match lookupJ st0.futures r.id with
  | some fut =>
      let st1 := {st0 with futures := popJ st0.futures r.id}
      match fut with
      | .cancelled => (st1, .droppedCancelled)
      | .resolved _ => (st1, .droppedDone)
      | .failed _ => (st1, .droppedDone)
      | .pending =>
          if jtruthyO r.error then
            (st1, .completedError (asException (r.error.getD .null) r.id))
          else (st1, .completedResult r.result)
  | none => (st0, .droppedUnsolicited)

/-- `msg.params["reason"] or "Connection terminated by peer."` (line 291):
subscripting list params by a string raises `TypeError`; a dict without the
key raises `KeyError`; a falsy reason falls back to the default text. -/
def termReason (p : Params) : Except PyExc J :=
  match p with
  | .named fs =>
      match alookup "reason" fs with
      | some v => .ok (if jtruthy v then v else .str "Connection terminated by peer.")
      | none => .error (.keyError "reason")
  | .pos _ => .error (.typeError "list indices must be integers or slices, not str")

/-- `Remote.process_message` (lines 224-319): Responses complete futures;
Requests are dispatched through the merged hook table, unknown methods get a
`method_not_found` error Response; a `TERM` Notification raises
`ConnectionResetError`; other Notifications are dispatched or silently
dropped. -/
def Remote.processMessage (hr hri : List (String × Handler))
    (hn hni : List (String × NHandler)) (st : RState) (m : Msg) :
    Except PyExc (RState × PyRet) :=
  match m with
  | .res r =>
      let s := Remote.handleResponse st r
      .ok (s.1, .noneV)
  | .req r =>
      let st1 := {st with recvRequest := st.recvRequest + 1}
      match strLookup (hooksMerge hr hri) r.method with
      | some h => .ok (st1, callHook h r)
      | none =>
          match ResponseM.init r.id (some (ErrorObj.toJ (ErrorObj.methodNotFound (some r.method)))) none with
          | .ok resp => .ok (st1, .respV resp)
          | .error e => .error e
  | .notif n =>
      let st1 := {st with recvNotif := st.recvNotif + 1}
      if jeq n.method (J.str "TERM") then
        match termReason n.params with
        | .ok reason => .error (.connectionResetError reason)
        | .error e => .error e
      else
        match strLookup (hooksMerge hn hni) n.method with
        | some h => .ok (st1, callNHook h n)
        | none => .ok (st1, .noneV)

/-- `recv.response(...)` guarded by `isinstance(recv, Request)`. -/
def mkIfReq (recv : Msg) (f : RequestM → Except PyExc ResponseM) :
    Except PyExc (Option ResponseM) :=
  match recv with
  | .req rq => (f rq).map some
  | _ => .ok none

/-- The `isinstance` chain mapping one processor return value to an optional
Batch entry (`Remote.run_helpers` lines 388-432 and, identically for resolved
awaitables, lines 442-465): a Response is kept; a dict/list/tuple becomes a
result Response; an Exception becomes an error Response via the spec-modelled
`Error.from_exception`; anything else is wrapped as `[] if tsk is None else
[tsk]`.  Non-Request messages produce no entry. -/
def respFor (recv : Msg) (t : PyRet) : Except PyExc (Option ResponseM) :=
  match t with
  | .respV r => .ok (some r)
  | .dictV fs => mkIfReq recv fun rq => ResponseM.init rq.id none (some (.obj fs))
  | .listV xs => mkIfReq recv fun rq => ResponseM.init rq.id none (some (.arr xs))
  | .tupleV xs => mkIfReq recv fun rq => ResponseM.init rq.id none (some (.arr xs))
  | .excV e => mkIfReq recv fun rq =>
      ResponseM.init rq.id (some (ErrorObj.toJ (ErrorObj.fromException e))) none
  | .noneV => mkIfReq recv fun rq => ResponseM.init rq.id none (some (.arr []))
  | .intV n => mkIfReq recv fun rq => ResponseM.init rq.id none (some (.arr [.num n]))
  | .strV s => mkIfReq recv fun rq => ResponseM.init rq.id none (some (.arr [.str s]))

/-- Modelled from the spec: `Batch.json` is called at `remote/__init__.py`
line 706 but is defined nowhere under `src/`; per spec section 4.1
`encode_batch` produces "a JSON array of message representations", a Response
representation carrying `jsonrpc`, exactly one of `result`/`error`, and `id`
(spec section 3). -/
def respToJ (r : ResponseM) : J :=
  .obj ([("jsonrpc", .str "2.0")] ++
    (match r.error with
     | some e => [("error", e)]
     | none => []) ++
    (match r.result with
     | some v => [("result", v)]
     | none => []) ++
    [("id", r.id)])

/-- The JSON array written for a Batch. -/
def batchJ (rs : List ResponseM) : J := .arr (rs.map respToJ)

/-- `Remote.send_batch` (lines 704-708): write the Batch payload only when it
is non-empty and the connection is open. -/
def Remote.sendBatch (st : RState) (rs : List ResponseM) : RState :=
  if !rs.isEmpty && st.openFlag then {st with writes := st.writes ++ [batchJ rs]}
  else st

/-- One worker iteration over the decoded messages of one line
(`Remote.run_helpers._helper`, lines 358-470): process every message, map
each return value to an optional Batch entry, then send the Batch.  A thrown
exception (`.error`) is what escapes the `try` into the `except` clauses of
`_helper`; an `.ok` result means the iteration finished without raising. -/
def Remote.helperStep (hr hri : List (String × Handler))
    (hn hni : List (String × NHandler)) (st : RState) (msgs : List Msg) :
    Except PyExc (RState × List ResponseM) := do
  let acc1 ← msgs.foldlM
    (fun (acc : RState × List (Msg × PyRet)) m => do
      let s ← Remote.processMessage hr hri hn hni acc.1 m
      pure (s.1, acc.2 ++ [(m, s.2)]))
    (st, ([] : List (Msg × PyRet)))
  let rs ← acc1.2.foldlM
    (fun (acc : List ResponseM) p => do
      let o ← respFor p.1 p.2
      pure (acc ++ o.toList))
    ([] : List ResponseM)
  pure (Remote.sendBatch acc1.1 rs, rs)

/-! ### `Remote` send operations. -/

/-- Uppercase hex digit of `n < 16`. -/
def hexDigit (n : Nat) : Char :=
  if n < 10 then Char.ofNat (48 + n) else Char.ofNat (55 + n)

/-- `format(n, "0>6X")` for `n < 2^24`: exactly six uppercase hex digits. -/
def hex6 (n : Nat) : String :=
  String.mk [hexDigit (n / 16 ^ 5 % 16), hexDigit (n / 16 ^ 4 % 16),
    hexDigit (n / 16 ^ 3 % 16), hexDigit (n / 16 ^ 2 % 16),
    hexDigit (n / 16 % 16), hexDigit (n % 16)]

/-- `Remote._id_new` (lines 192-193): the local alias, a slash, and
`randbits(24)` formatted as six uppercase hex digits. -/
def Remote.idNew (alias_ : String) (r : Nat) : String :=
  alias_ ++ "/" ++ hex6 (r % 2 ^ 24)

/-- The `params` argument of `Remote.notif`/`Remote.request`: `None`, a
list/tuple, or a dict. -/
inductive ParamsArg where
  | noneP
  | listP (xs : List J)
  | dictP (fs : List (String × J))

/-- The Request construction of `Remote.request` (lines 643-648): the freshly
generated id `mid` is passed under the keyword `mid`, which
`Request.__init__` does not declare, so it lands in `**kwargs`. -/
def Remote.requestCall (meth : String) (params : ParamsArg) (mid fresh : String) :
    Except PyExc RequestM :=
  match params with
  | .dictP fs => RequestM.init (.str meth) [] (fs ++ [("mid", .str mid)]) fresh
  | .listP xs => RequestM.init (.str meth) xs [("mid", .str mid)] fresh
  | .noneP => RequestM.init (.str meth) [] [("mid", .str mid)] fresh

/-- How `Remote.request` returns to its caller. -/
inductive ReqOut where
  /-- An exception propagated out of the call. -/
  | raised (e : PyExc)
  /-- `self.open` was false: an untracked future already failed with
  `ConnectionResetError` is returned; nothing is raised. -/
  | closedFuture
  /-- `timeout == 0`: the registered pending future is returned. -/
  | retFuture (fid : J)
  /-- `timeout > 0`: the caller is left awaiting `wait_for(future, timeout)`. -/
  | awaitTimeout (fid : J) (timeout : Nat)

/-- `Remote.request` (lines 619-667) up to the point where control returns to
the caller.  When open, the Request is built (which raises `ValueError` for
non-empty positional params, propagating before the `try`), the future is
registered under `req.id`, and the send attempt at line 658 raises `TypeError`
inside `str(req)` (the `__iter__` stubs) before any write, an exception the
`except` clause logs and whose re-raise is discarded by the `return` in the
`finally` block, so no payload is written.  Timeouts are modelled in whole
seconds; only their positivity matters. -/
def Remote.request (st : RState) (meth : String) (params : ParamsArg)
    (mid fresh : String) (timeout : Nat) : RState × ReqOut :=
  if !st.openFlag then (st, .closedFuture)
  else
    let st1 := {st with sentRequest := st.sentRequest + 1}
    match Remote.requestCall meth params mid fresh with
    | .error e => (st1, .raised e)
    | .ok req =>
        let st2 := {st1 with futures := setJ st1.futures req.id .pending}
        if timeout > 0 then (st2, .awaitTimeout req.id timeout)
        else (st2, .retFuture req.id)

/-- `Future.cancel()`: only a pending future becomes cancelled. -/
def FutState.cancelInner : FutState → FutState
  | .pending => .cancelled
  | s => s

/-- `asyncio.wait_for(future, timeout)` at deadline expiry (awaited at line
665): the wrapped future is cancelled and `TimeoutError` is raised to the
caller.  Nothing in `Remote.request` removes the entry from `self.futures`. -/
def Remote.waitForExpire (st : RState) (fid : J) : RState × PyExc :=
  ({st with futures := st.futures.map fun kv =>
      if jeq kv.1 fid then (kv.1, kv.2.cancelInner) else kv},
   .timeoutError)

/-- `Remote.send` (lines 698-702): when open, `str(msg)` raises `TypeError`
(see `msgIterItems`) before `connection.write` is reached — the `some` branch
is dead code in this source; when closed, return 0 without touching the
connection. -/
def Remote.send (st : RState) (m : Msg) : RState × Except PyExc Nat :=
  if st.openFlag then
    match Message.strJ m with
    | some payload => ({st with writes := st.writes ++ [payload]}, .ok 0)
    | none => (st, .error (.typeError "iter() returned non-iterator"))
  else (st, .ok 0)

/-- `Remote.notif` (lines 567-592): short-circuit when closed; otherwise bump
the counter, build the Notification and send it, logging and swallowing any
exception unless `nohandle` is set. -/
def Remote.notif (st : RState) (meth : String) (params : ParamsArg)
    (nohandle : Bool) : RState × Except PyExc Unit :=
  if !st.openFlag then (st, .ok ())
  else
    let st1 := {st with sentNotif := st.sentNotif + 1}
    let built : Except PyExc NotificationM :=
      match params with
      | .dictP fs => NotificationM.init (.str meth) [] fs
      | .listP xs => NotificationM.init (.str meth) xs []
      | .noneP => NotificationM.init (.str meth) [] []
    match built with
    | .error e => (st1, if nohandle then .error e else .ok ())
    | .ok n =>
        let s := Remote.send st1 (.notif n)
        match s.2 with
        | .ok _ => (s.1, .ok ())
        | .error e => (s.1, if nohandle then .error e else .ok ())

/-- `Remote.respond` (lines 669-696): nothing at all happens when the
connection is closed; otherwise bump the counter, build the Response (error
wins over result, matching `Response(mid, error=err) if err else Response(mid,
result=res)`) and send it, swallowing exceptions unless `nohandle`. -/
def Remote.respond (st : RState) (mid : J) (err : Option ErrorObj)
    (res : Option J) (nohandle : Bool) : RState × Except PyExc Unit :=
  if st.openFlag then
    let st1 := {st with sentResponse := st.sentResponse + 1}
    let built : Except PyExc ResponseM :=
      match err with
      | some e => ResponseM.init mid (some e.toJ) none
      | none => ResponseM.init mid none res
    match built with
    | .error e => (st1, if nohandle then .error e else .ok ())
    | .ok r =>
        let s := Remote.send st1 (.res r)
        match s.2 with
        | .ok _ => (s.1, .ok ())
        | .error e => (s.1, if nohandle then .error e else .ok ())
  else (st, .ok ())

/-! ### `Connection.__anext__` (`remote/connection.py` lines 158-169). -/

/-- The outcome of one `Connection.read()` call: a decoded payload string, a
`CryptoError` (failed decrypt or signature verification), or any other I/O
error (`IncompleteReadError`, `ConnectionError`, ...). -/
inductive ReadEv where
  | line (s : String)
  | cryptoErr (m : String)
  | ioErr (m : String)

/-- What one `__anext__` step does. -/
inductive AStep where
  /-- A payload is yielded; iteration continues. -/
  | yieldVal (s : String)
  /-- A `CryptoError` is yielded inline; iteration continues. -/
  | yieldExc (m : String)
  /-- `StopAsyncIteration`: the async-for terminates normally. -/
  | stopIter
  /-- A non-crypto error propagates, terminating the async-for. -/
  | propagateErr (m : String)

/-- `Connection.__anext__`: `CryptoError` from `read()` is caught and returned
as a value; any other error propagates; a successful read is yielded only
when the payload is non-empty (`if line`) and the connection is open,
otherwise `StopAsyncIteration` is raised. -/
def Connection.anext (openFlag : Bool) (ev : ReadEv) : AStep :=
  match ev with
  | .line s => if !s.isEmpty && openFlag then .yieldVal s else .stopIter
  | .cryptoErr m => .yieldExc m
  | .ioErr m => .propagateErr m

/-! ### Concrete states, tables and inputs used by the claim theorems. -/

/-- The wire object of a well-formed Notification. -/
def c2wire : J :=
  .obj [("jsonrpc", .str "2.0"), ("method", .str "PING"), ("params", .arr [.str "x"])]

/-- The fresh-id stream used while decoding `c2wire` (unused: the line holds
no Request). -/
def c2ids : Nat → String := fun _ => "w1"

/-- A JSON-RPC 2.0 object carrying an id and BOTH `result` and `error`. -/
def c4both : List (String × J) :=
  [("jsonrpc", .str "2.0"), ("result", .num 1),
   ("error", .obj [("code", .num 1), ("message", .str "x")]), ("id", .str "a")]

/-- A base state with an open connection and empty tables. -/
def baseState : RState := ⟨true, [], [], 0, 0, 0, 0, 0, 0⟩

/-- A Request hook returning the int 5. -/
def c5hook5 : Handler := fun _ => .ok (.intV 5)

/-- A Request hook returning the int 0. -/
def c5hook0 : Handler := fun _ => .ok (.intV 0)

/-- The inbound Request dispatched to the int-returning hooks. -/
def c5req : RequestM := ⟨.str "M", .pos [], .str "q5"⟩

/-- The result Response the worker actually sends for an int return `n`. -/
def c5resp (n : Int) : ResponseM := ⟨.str "q5", none, some (.arr [.num n])⟩

/-- The alias-prefixed id generated by `Remote._id_new` for the Request of
claim C8 (`randbits(24)` drawn as `0x123456`). -/
def c8mid : String := Remote.idNew "AB" 1193046

/-- The peer's own table: method `"M"` answered with the int 1. -/
def c9own : List (String × Handler) := [("M", fun _ => .ok (.intV 1))]

/-- The inherited table: method `"M"` answered with the int 2. -/
def c9inher : List (String × Handler) := [("M", fun _ => .ok (.intV 2))]

/-- The Request dispatched in the C9 counterexample. -/
def c9req : RequestM := ⟨.str "M", .pos [], .str "a9"⟩

/-- The state after `request("M", timeout=5)` on a fresh open Remote: the
future for the generated id `"u1"` is registered pending. -/
def c3afterReq : RState := (Remote.request baseState "M" .noneP "AB/000001" "u1" 5).1

/-- The state and caller outcome after the 5-second deadline expires. -/
def c3afterExpiry : RState × PyExc := Remote.waitForExpire c3afterReq (.str "u1")

/-- The concrete single-entry state used by the C3 witness. -/
def c3wst : RState := ⟨true, [(.str "u1", .pending)], [], 0, 0, 0, 0, 0, 0⟩

/-- The late Response arriving after the C3 witness timeout. -/
def c3wresp : ResponseM := ⟨.str "u1", none, some (.arr [])⟩

/-- The closed state used by the C6 witness. -/
def c6st : RState := ⟨false, [], [], 0, 0, 0, 0, 0, 0⟩

/-- The error Response the worker builds for a Request `r` whose handler
raised `e`, via the spec-modelled `Error.from_exception`. -/
def excResponse (r : RequestM) (e : PyExc) : ResponseM :=
  ⟨r.id, some (ErrorObj.toJ (ErrorObj.fromException e)), none⟩

/-- The raising hook of the C1 witness. -/
def c1hook : Handler := fun _ => .error (.runtimeError "boom")

/-- The inbound Request of the C1 witness. -/
def c1req : RequestM := ⟨.str "F", .pos [], .str "q1"⟩

/-! ### Association-list lemmas shared by the claim theorems. -/

theorem alookup_setKey_self {α : Type} (l : List (String × α)) (k : String) (v : α) :
    alookup k (setKey l k v) = some v := by
  induction l with
  | nil => simp [setKey, alookup]
  | cons kv t ih =>
      obtain ⟨k', v'⟩ := kv
      by_cases hk : k' = k
      · simp [setKey, hk, alookup]
      · simp [setKey, hk, alookup, ih]

theorem alookup_setKey_ne {α : Type} (l : List (String × α)) (k m : String) (v : α)
    (hk : k ≠ m) : alookup m (setKey l k v) = alookup m l := by
  induction l with
  | nil => simp [setKey, alookup, hk]
  | cons kv t ih =>
      obtain ⟨k', v'⟩ := kv
      by_cases hk' : k' = k
      · subst hk'
        simp [setKey, alookup, hk]
      · simp [setKey, hk', alookup, ih]

theorem alookup_eq_none_of_not_mem {α : Type} (l : List (String × α)) (m : String)
    (hm : m ∉ l.map Prod.fst) : alookup m l = none := by
  induction l with
  | nil => rfl
  | cons kv t ih =>
      obtain ⟨k', v'⟩ := kv
      simp only [List.map_cons, List.mem_cons] at hm
      push_neg at hm
      simp only [alookup]
      rw [if_neg fun h => hm.1 h.symm]
      exact ih hm.2

/-- Lookup through the `copy`-then-`update` merge: the inherited table wins,
the peer's own table is reached only when the inherited table lacks the key. -/
theorem alookup_hooksMerge {α : Type} (own inher : List (String × α)) (m : String)
    (hnd : (inher.map Prod.fst).Nodup) :
    alookup m (hooksMerge own inher) =
      ((alookup m inher).orElse fun _ => alookup m own) := by
  induction inher generalizing own with
  | nil => simp [hooksMerge, alookup, Option.orElse]
  | cons kv t ih =>
      obtain ⟨k, v⟩ := kv
      simp only [List.map_cons, List.nodup_cons] at hnd
      have step : hooksMerge own ((k, v) :: t) = hooksMerge (setKey own k v) t := rfl
      rw [step, ih (setKey own k v) hnd.2]
      by_cases hk : k = m
      · subst hk
        rw [alookup_eq_none_of_not_mem t k hnd.1]
        simp [alookup, alookup_setKey_self, Option.orElse]
      · simp [alookup, hk, alookup_setKey_ne own k m v hk]

theorem lookupJ_map_cancel (l : List (J × FutState)) (fid : J) (v : FutState)
    (hl : lookupJ l fid = some v) :
    lookupJ (l.map fun kv => if jeq kv.1 fid then (kv.1, kv.2.cancelInner) else kv) fid =
      some v.cancelInner := by
  induction l with
  | nil => simp [lookupJ] at hl
  | cons kv t ih =>
      obtain ⟨k, w⟩ := kv
      by_cases hk : jeq k fid = true
      · simp only [lookupJ] at hl
        rw [if_pos hk] at hl
        cases hl
        simp only [List.map_cons]
        rw [if_pos hk]
        simp only [lookupJ]
        rw [if_pos hk]
      · simp only [lookupJ] at hl
        rw [if_neg hk] at hl
        simp only [List.map_cons]
        rw [if_neg hk]
        simp only [lookupJ]
        rw [if_neg hk]
        exact ih hl

theorem lookupJ_popJ_self (l : List (J × FutState)) (fid : J) :
    lookupJ (popJ l fid) fid = none := by
  induction l with
  | nil => rfl
  | cons kv t ih =>
      obtain ⟨k, w⟩ := kv
      by_cases hk : jeq k fid = true
      · simpa [popJ, hk] using ih
      · simpa [popJ, lookupJ, hk] using ih

/-! ### Claim C2 — round-tripping. -/

/-- C2: the claim states `encode(decode(x)) = x` for well-formed `x`.  On this
source, decoding the well-formed Notification succeeds, but re-encoding any
`Message` fails: `Message.__str__` calls `dict(self)`, and every subclass
`__iter__` is a `# TODO` stub returning `None`, so encoding raises `TypeError`
(embedded: `Message.strJ` is `none`) instead of reproducing `x`. -/
theorem C2_roundtrip_broken_encode :
    JRPC.decodeJ c2ids c2wire = .ok [.notif ⟨.str "PING", .pos [.str "x"]⟩] ∧
    Message.strJ (.notif ⟨.str "PING", .pos [.str "x"]⟩) = none ∧
    (none : Option J) ≠ some c2wire :=
  ⟨rfl, rfl, fun h => nomatch h⟩

/-! ### Claim C4 — classification of objects with both `result` and `error`. -/

/-- C4 counterexample: the claim states an object containing both `result`
and `error` is classified Invalid, never Response.  `JRPC.check` tests
`res_sub & keys` (non-empty intersection), not exactly-one, so this object is
classified `RESPONSE`. -/
theorem C4_counterexample :
    JRPC.check c4both = .RESPONSE ∧ JRPC.check c4both ≠ .NONE :=
  ⟨rfl, fun h => nomatch h⟩

/-- C4 (amended): the classifier labels an object a Response only if it has
an `id`, at least one of `result`/`error`, and no keys beyond
`{jsonrpc, id, result, error}`; an object with both `result` and `error` is
classified Response, and decoding such an object (with both values truthy)
raises `ValueError` in `Response.set`, so it never yields a `Message`. -/
theorem C4_response_classification :
    (∀ fs : List (String × J), JRPC.check fs = .RESPONSE →
      keyMem "id" (fs.map Prod.fst) = true ∧
      (keyMem "error" (fs.map Prod.fst) || keyMem "result" (fs.map Prod.fst)) = true ∧
      allIn (fs.map Prod.fst) resSupK = true) ∧
    (∀ ids : Nat → String, JRPC.decodeJ ids (.obj c4both) =
      .error (.valueError "Response must be provided either an Error OR a Result.")) := by
  constructor
  · intro fs h
    unfold JRPC.check at h
    split at h
    next =>
      simp only at h
      split at h
      next hin =>
        split at h
        next => exact absurd h (by simp)
        next =>
          split at h
          next hres =>
            rw [Bool.and_eq_true] at hin hres
            refine ⟨?_, hres.1, hres.2⟩
            have := hin.1
            simp only [allIn, idK, List.all_cons, List.all_nil, Bool.and_eq_true] at this
            exact this.2.1
          next => exact absurd h (by simp)
      next =>
        split at h
        next => exact absurd h (by simp)
        next => exact absurd h (by simp)
    next => exact absurd h (by simp)
  · intro ids
    rfl

/-- C4 witness: the amended theorem applied to the concrete object. -/
theorem C4_witness :
    (keyMem "id" (c4both.map Prod.fst) = true ∧
      (keyMem "error" (c4both.map Prod.fst) || keyMem "result" (c4both.map Prod.fst)) = true ∧
      allIn (c4both.map Prod.fst) resSupK = true) ∧
    JRPC.decodeJ (fun _ => "w2") (.obj c4both) =
      .error (.valueError "Response must be provided either an Error OR a Result.") :=
  ⟨C4_response_classification.1 c4both rfl, C4_response_classification.2 (fun _ => "w2")⟩

/-! ### Claim C5 — handler returning an int. -/

/-- C5: the claim states an int return `n` maps to result `[]` when `n == 0`
and otherwise to an error with `code=n`, `message=strerror(n)`.  The
`isinstance` chain of `Remote.run_helpers` has no int case: an int falls to
the final `else` and is wrapped as `result=[tsk]`, so the worker sends a
result Response `[5]` for 5 (no error Response at all) and `[0]` — not `[]` —
for 0.  The `strerror` mapping exists only in a commented-out block of
`remote/handlers.py`. -/
theorem C5_int_return_wrapped_as_result :
    Remote.helperStep [("M", c5hook5)] [] [] [] baseState [.req c5req] =
      .ok ({baseState with recvRequest := 1, writes := [batchJ [c5resp 5]]}, [c5resp 5]) ∧
    Remote.helperStep [("M", c5hook0)] [] [] [] baseState [.req c5req] =
      .ok ({baseState with recvRequest := 1, writes := [batchJ [c5resp 0]]}, [c5resp 0]) ∧
    (c5resp 5).error = none ∧ (c5resp 5).result = some (.arr [.num 5]) ∧
    (c5resp 0).result = some (.arr [.num 0]) :=
  ⟨rfl, rfl, rfl, rfl, rfl⟩

/-! ### Claim C7 — the Connection iterator contract. -/

/-- C7 counterexample: the claim states iteration terminates only when the
`open` flag is false or a non-crypto I/O error occurs, and that every frame
decoding successfully while open is yielded.  A frame decoding to the empty
string is a successful decode, yet `if line and self.open` is false for it,
so `__anext__` raises `StopAsyncIteration` while `open` is still true. -/
theorem C7_counterexample :
    Connection.anext true (.line "") = .stopIter ∧
    Connection.anext true (.line "") ≠ .yieldVal "" :=
  ⟨rfl, fun h => nomatch h⟩

/-- C7 (amended): each `__anext__` step yields the payload for a non-empty
successfully decoded line while open, yields crypto errors inline, propagates
non-crypto I/O errors, and raises `StopAsyncIteration` exactly when a line
was read while the flag is down or the decoded payload is empty. -/
theorem C7_anext_contract (openFlag : Bool) (ev : ReadEv) :
    (Connection.anext openFlag ev = .stopIter ↔
      ∃ s, ev = .line s ∧ (s = "" ∨ openFlag = false)) ∧
    (∀ s, ev = .line s → s ≠ "" → openFlag = true →
      Connection.anext openFlag ev = .yieldVal s) ∧
    (∀ m, ev = .cryptoErr m → Connection.anext openFlag ev = .yieldExc m) ∧
    (∀ m, ev = .ioErr m → Connection.anext openFlag ev = .propagateErr m) := by
  cases ev with
  | line s =>
      cases openFlag <;>
        by_cases hs : s = "" <;>
          simp [Connection.anext, hs, String.isEmpty_iff]
  | cryptoErr m => simp [Connection.anext]
  | ioErr m => simp [Connection.anext]

/-- C7 witness: the amended theorem applied to a non-empty line and a crypto
error on an open connection. -/
theorem C7_witness :
    Connection.anext true (.line "abc") = .yieldVal "abc" ∧
    Connection.anext true (.cryptoErr "bad mac") = .yieldExc "bad mac" :=
  ⟨(C7_anext_contract true (.line "abc")).2.1 "abc" rfl (by decide) rfl,
   (C7_anext_contract true (.cryptoErr "bad mac")).2.2.1 "bad mac" rfl⟩

/-! ### Claim C8 — the id carried by an outbound Request. -/

/-- C8: the claim states every Request sent by `Remote.request` carries an id
of the form alias-prefix plus 24 random bits.  `_id_new` itself produces that
shape, but `Remote.request` passes it as the undeclared keyword `mid`, which
`Request.__init__` collects into `**kwargs`: the generated id ends up inside
`params` under the key `"mid"`, and the Request's actual id is a fresh
`uuid4().hex` (here `"f00d"`), which does not begin with the alias and the
slash. -/
theorem C8_request_id_not_alias_prefixed :
    Remote.idNew "AB" 1193046 = "AB/123456" ∧
    Remote.requestCall "M" (.dictP [("x", .num 1)]) c8mid "f00d" =
      .ok ⟨.str "M", .named [("x", .num 1), ("mid", .str "AB/123456")], .str "f00d"⟩ ∧
    "f00d" ≠ c8mid ∧
    "f00d".data.take 3 ≠ "AB/".data :=
  ⟨rfl, rfl, by decide, by decide⟩

/-! ### Claim C9 — precedence between own and inherited handler tables. -/

/-- C9 counterexample: the claim states the peer's own handler is invoked
when a method is registered in both tables.  `hooks = own.copy();
hooks.update(inherited)` lets the inherited entry overwrite the own entry, so
dispatch returns the inherited handler's value 2, not the own handler's 1. -/
theorem C9_counterexample :
    Remote.processMessage c9own c9inher [] [] baseState (.req c9req) =
      .ok ({baseState with recvRequest := 1}, .intV 2) ∧
    PyRet.intV 2 ≠ PyRet.intV 1 :=
  ⟨rfl, fun h => by simp at h⟩

/-- C9 (amended): dispatch invokes the handler from the inherited table
whenever the method is registered there; the peer's own table is effective
only for methods absent from the inherited table.  Stated for both Request
and (non-`TERM`) Notification dispatch; `Nodup` reflects the uniqueness of
Python dict keys. -/
theorem C9_inherited_table_precedence :
    ∀ (st : RState) (own inher : List (String × Handler))
      (nown ninher : List (String × NHandler)) (m : String),
      (inher.map Prod.fst).Nodup →
      (ninher.map Prod.fst).Nodup →
      (∀ (r : RequestM) (h : Handler), r.method = .str m →
        alookup m inher = some h →
        Remote.processMessage own inher nown ninher st (.req r) =
          .ok ({st with recvRequest := st.recvRequest + 1}, callHook h r)) ∧
      (∀ (r : RequestM) (h : Handler), r.method = .str m →
        alookup m inher = none → alookup m own = some h →
        Remote.processMessage own inher nown ninher st (.req r) =
          .ok ({st with recvRequest := st.recvRequest + 1}, callHook h r)) ∧
      (∀ (n : NotificationM) (g : NHandler), n.method = .str m → m ≠ "TERM" →
        alookup m ninher = some g →
        Remote.processMessage own inher nown ninher st (.notif n) =
          .ok ({st with recvNotif := st.recvNotif + 1}, callNHook g n)) ∧
      (∀ (n : NotificationM) (g : NHandler), n.method = .str m → m ≠ "TERM" →
        alookup m ninher = none → alookup m nown = some g →
        Remote.processMessage own inher nown ninher st (.notif n) =
          .ok ({st with recvNotif := st.recvNotif + 1}, callNHook g n)) := by
  intro st own inher nown ninher m hnd hnnd
  refine ⟨?_, ?_, ?_, ?_⟩
  · intro r h hm hi
    simp only [Remote.processMessage]
    rw [hm]
    simp only [strLookup]
    rw [alookup_hooksMerge own inher m hnd, hi]
    rfl
  · intro r h hm hi ho
    simp only [Remote.processMessage]
    rw [hm]
    simp only [strLookup]
    rw [alookup_hooksMerge own inher m hnd, hi, ho]
    rfl
  · intro n g hm hterm hi
    simp only [Remote.processMessage]
    rw [hm]
    have hje : jeq (J.str m) (J.str "TERM") = false := by
      simp [jeq, hterm]
    rw [hje]
    simp only [Bool.false_eq_true, if_false, strLookup]
    rw [alookup_hooksMerge nown ninher m hnnd, hi]
    rfl
  · intro n g hm hterm hi ho
    simp only [Remote.processMessage]
    rw [hm]
    have hje : jeq (J.str m) (J.str "TERM") = false := by
      simp [jeq, hterm]
    rw [hje]
    simp only [Bool.false_eq_true, if_false, strLookup]
    rw [alookup_hooksMerge nown ninher m hnnd, hi, ho]
    rfl

/-- C9 witness: the amended theorem applied to the concrete tables of the
counterexample. -/
theorem C9_witness :
    Remote.processMessage c9own c9inher [] [] baseState (.req c9req) =
      .ok ({baseState with recvRequest := 1},
        callHook (fun _ => .ok (.intV 2)) c9req) := by
  have H := (C9_inherited_table_precedence baseState c9own c9inher [] [] "M"
    (by simp [c9inher]) (by simp)).1 c9req (fun _ => .ok (.intV 2)) rfl rfl
  exact H

/-! ### Claim C3 — Request timeout expiry. -/

/-- C3 counterexample: the claim states the outstanding entry is removed at
expiry.  `wait_for` cancels the future and raises `TimeoutError`, but nothing
removes the entry from `self.futures`: after expiry the table still maps the
Request's id to the (now cancelled) future. -/
theorem C3_counterexample :
    c3afterExpiry.2 = .timeoutError ∧
    lookupJ c3afterExpiry.1.futures (.str "u1") = some .cancelled ∧
    lookupJ c3afterExpiry.1.futures (.str "u1") ≠ none :=
  ⟨rfl, rfl, fun h => nomatch h⟩

/-- C3 (amended): on expiry the completion is cancelled and `TimeoutError` is
raised to the caller; the outstanding entry remains in the table, and it is
removed only when a Response with that id later arrives, which is then
dropped as addressed to a cancelled future without completing anything. -/
theorem C3_timeout_cancels_entry_remains :
    ∀ (st : RState) (fid : J), lookupJ st.futures fid = some .pending →
      (Remote.waitForExpire st fid).2 = .timeoutError ∧
      lookupJ (Remote.waitForExpire st fid).1.futures fid = some .cancelled ∧
      ∀ r : ResponseM, r.id = fid →
        (Remote.handleResponse (Remote.waitForExpire st fid).1 r).2 = .droppedCancelled ∧
        lookupJ (Remote.handleResponse (Remote.waitForExpire st fid).1 r).1.futures fid =
          none := by
  intro st fid hp
  have hc : lookupJ (Remote.waitForExpire st fid).1.futures fid = some .cancelled := by
    simpa [Remote.waitForExpire, FutState.cancelInner] using
      lookupJ_map_cancel st.futures fid .pending hp
  refine ⟨rfl, hc, ?_⟩
  intro r hr
  unfold Remote.handleResponse
  rw [hr]
  simp only
  rw [hc]
  exact ⟨rfl, lookupJ_popJ_self _ fid⟩

/-- C3 witness: the amended theorem applied to the concrete state. -/
theorem C3_witness :
    (Remote.waitForExpire c3wst (.str "u1")).2 = .timeoutError ∧
    lookupJ (Remote.waitForExpire c3wst (.str "u1")).1.futures (.str "u1") =
      some .cancelled ∧
    (Remote.handleResponse (Remote.waitForExpire c3wst (.str "u1")).1 c3wresp).2 =
      .droppedCancelled ∧
    lookupJ (Remote.handleResponse (Remote.waitForExpire c3wst (.str "u1")).1
      c3wresp).1.futures (.str "u1") = none := by
  have H := C3_timeout_cancels_entry_remains c3wst (.str "u1") rfl
  exact ⟨H.1, H.2.1, (H.2.2 c3wresp rfl).1, (H.2.2 c3wresp rfl).2⟩

/-! ### Claim C6 — closed connection short-circuits every send. -/

/-- C6: whenever the connection's `open` flag is false, `send`, `notif`,
`request` and `respond` perform no write (the state, including `writes` and
`futures`, is untouched) and return to the caller without raising:  `send`
returns 0, `notif` and `respond` return `None`, and `request` returns an
untracked future pre-failed with `ConnectionResetError` rather than
raising. -/
theorem C6_closed_sends_short_circuit :
    ∀ (st : RState) (m : Msg) (meth : String) (params : ParamsArg) (nohandle : Bool)
      (mid fresh : String) (timeout : Nat) (rid : J) (err : Option ErrorObj)
      (res : Option J),
      st.openFlag = false →
      Remote.send st m = (st, .ok 0) ∧
      Remote.notif st meth params nohandle = (st, .ok ()) ∧
      Remote.request st meth params mid fresh timeout = (st, .closedFuture) ∧
      Remote.respond st rid err res nohandle = (st, .ok ()) := by
  intro st m meth params nohandle mid fresh timeout rid err res hcl
  refine ⟨?_, ?_, ?_, ?_⟩ <;>
    simp [Remote.send, Remote.notif, Remote.request, Remote.respond, hcl]

/-- C6 witness: the theorem applied to a concrete closed Remote. -/
theorem C6_witness :
    Remote.send c6st (.notif ⟨.str "N", .pos []⟩) = (c6st, .ok 0) ∧
    Remote.notif c6st "N" .noneP false = (c6st, .ok ()) ∧
    Remote.request c6st "M" .noneP "AB/000001" "u2" 0 = (c6st, .closedFuture) ∧
    Remote.respond c6st (.str "q") none (some (.arr [])) false = (c6st, .ok ()) :=
  C6_closed_sends_short_circuit c6st (.notif ⟨.str "N", .pos []⟩) "N" .noneP false
    "AB/000001" "u2" 0 (.str "q") none (some (.arr [])) rfl

/-! ### Claim C10 — list params make `Remote.request` raise. -/

/-- C10: on an open Remote, giving `Remote.request` params as a non-empty
list or tuple makes `Request(meth, *params, mid=...)` raise `ValueError`
(positional arguments mixed with the `mid` keyword, which lands in
`**kwargs`): the exception propagates before the `try`, so nothing is written,
no future is registered (the created future is abandoned pending), and only
the `request` counter has been bumped. -/
theorem C10_list_params_raise_value_error :
    ∀ (st : RState) (meth : String) (x : J) (xs : List J) (mid fresh : String)
      (timeout : Nat),
      st.openFlag = true →
      Remote.request st meth (.listP (x :: xs)) mid fresh timeout =
        ({st with sentRequest := st.sentRequest + 1},
         .raised (.valueError
           "JSONRPC Request cannot mix Positional and Keyword Arguments.")) ∧
      (Remote.request st meth (.listP (x :: xs)) mid fresh timeout).1.futures =
        st.futures ∧
      (Remote.request st meth (.listP (x :: xs)) mid fresh timeout).1.writes =
        st.writes := by
  intro st meth x xs mid fresh timeout hop
  have h1 : Remote.request st meth (.listP (x :: xs)) mid fresh timeout =
      ({st with sentRequest := st.sentRequest + 1},
       .raised (.valueError
         "JSONRPC Request cannot mix Positional and Keyword Arguments.")) := by
    simp [Remote.request, Remote.requestCall, RequestM.init, hop, List.filter]
  refine ⟨h1, ?_, ?_⟩ <;> rw [h1]

/-- C10 witness: the theorem applied to a concrete open Remote and the params
list `[1]`. -/
theorem C10_witness :
    Remote.request baseState "M" (.listP [.num 1]) "AB/000002" "u3" 0 =
      ({baseState with sentRequest := 1},
       .raised (.valueError
         "JSONRPC Request cannot mix Positional and Keyword Arguments.")) :=
  (C10_list_params_raise_value_error baseState "M" (.num 1) [] "AB/000002" "u3" 0 rfl).1

/-! ### Claim C1 — handler exceptions become error Responses. -/

/-- C1: for an inbound Request whose registered handler raises, the
`try/except` in `Remote.process_message` captures the exception and returns
it as a value; the worker's `isinstance` chain wraps it into an error
Response for that Request, the Batch holding it is written to the open
connection, and the whole worker iteration finishes with `.ok` — no exception
escapes the worker (so nothing reaches the pool supervisor and the connection
is not closed).  Uses the spec-modelled `Error.from_exception`. -/
theorem C1_handler_exception_to_error_response :
    ∀ (st : RState) (hr hri : List (String × Handler))
      (hn hni : List (String × NHandler)) (r : RequestM) (name : String)
      (h : Handler) (e : PyExc),
      st.openFlag = true →
      r.method = .str name →
      alookup name (hooksMerge hr hri) = some h →
      h r = .error e →
      Remote.helperStep hr hri hn hni st [.req r] =
        .ok ({st with recvRequest := st.recvRequest + 1, writes := st.writes ++ [batchJ [excResponse r e]]}, [excResponse r e]) := by
  intro st hr hri hn hni r name h e hop hm hlook hraise
  have hpm : Remote.processMessage hr hri hn hni st (.req r) =
      .ok ({st with recvRequest := st.recvRequest + 1}, .excV e) := by
    simp only [Remote.processMessage]
    rw [hm]
    simp only [strLookup]
    rw [hlook]
    simp [callHook, hraise]
  have hresp : respFor (.req r) (.excV e) = .ok (some (excResponse r e)) := by
    simp [respFor, mkIfReq, ResponseM.init, jtruthyO, jtruthy, ErrorObj.toJ,
      ErrorObj.toDict, ErrorObj.fromException, excResponse, Except.map]
  simp [Remote.helperStep, List.foldlM, hpm, hresp, Remote.sendBatch, hop,
    Option.toList, batchJ, Except.map, Except.bind, bind, Functor.map, pure,
    Except.pure, List.isEmpty]

/-- C1 witness: the theorem applied to a concrete table with a raising
handler. -/
theorem C1_witness :
    Remote.helperStep [("F", c1hook)] [] [] [] baseState [.req c1req] =
      .ok ({baseState with recvRequest := 1, writes := [batchJ [excResponse c1req (.runtimeError "boom")]]}, [excResponse c1req (.runtimeError "boom")]) := by
  have H := C1_handler_exception_to_error_response baseState [("F", c1hook)] [] [] []
    c1req "F" c1hook (.runtimeError "boom") rfl rfl rfl rfl
  simpa [baseState] using H
